/-
  Verification of the TTS service coordination layer of the
  `short-video-maker` repository.

  The repository contains three Flask TTS services:
    * `scripts/tts/tts_service.py`        (single global model, one fallback)
    * `scripts/tts/tts_service_backup.py` (per-language model cache, two fallbacks,
                                           language-capability retry)
    * `scripts/tts/hybrid_tts_service.py` (voice registry routing between the
                                           "chatterbox" and "xtts" engines)

  The embedding below translates the routing, loading, sanitization, validation
  and normalization logic of these files into pure Lean functions.  External
  effects (the neural model constructors and inference calls, the filesystem,
  Python's `hash`) are supplied as explicit environment parameters; each
  constructor / inference invocation is indexed by the number of calls made so
  far, so that distinct invocations may succeed or fail independently, exactly
  as exceptions may arise nondeterministically at runtime.  Exceptions are
  modelled with `Except`/`Option`; mutated globals are threaded as explicit
  state records.
-/
import Mathlib

/-- The straight double-quote character `"` (code point 34). -/
def dquoteChar : Char := Char.ofNat 34

/-- The straight single-quote character (code point 39). -/
def squoteChar : Char := Char.ofNat 39

/-- Fuel-indexed scanner behind `replaceSub`; the fuel only bounds the
recursion depth (one unit per character consumed), so any fuel of at least
the list's length computes the same result. -/
def replaceSubAux (needle : List Char) : Nat → List Char → List Char
  | _, [] => []
  | 0, l => l
  | fuel + 1, c :: rest =>
    if needle ≠ [] ∧ needle.isPrefixOf (c :: rest) = true then
      replaceSubAux needle fuel (rest.drop (needle.length - 1))
    else
      c :: replaceSubAux needle fuel rest

/-- Python's `str.replace(needle, "")` on character lists: delete every
(non-overlapping, leftmost-first) occurrence of `needle`. -/
def replaceSub (needle l : List Char) : List Char :=
  replaceSubAux needle l.length l

/-- Python's `s.replace(needle, "")` on strings. -/
def removeAll (s needle : String) : String :=
  String.mk (replaceSub needle.data s.data)

/-- One-character strings holding the two quote characters. -/
def dquoteStr : String := String.mk [dquoteChar]

/-- One-character string holding the single quote. -/
def squoteStr : String := String.mk [squoteChar]

/-- `text.replace('"', '').replace("'", "")` — the quote-stripping
normalization of `tts_service.py` line 57 and `tts_service_backup.py`
line 112. -/
def sanitizedText (text : String) : String :=
  removeAll (removeAll text dquoteStr) squoteStr

/-- Python's `str.strip()`: remove leading and trailing whitespace. -/
def pyStrip (s : String) : String :=
  String.mk (((s.data.dropWhile Char.isWhitespace).reverse.dropWhile
    Char.isWhitespace).reverse)

/-- Python's `needle in hay` substring test on character lists. -/
def containsSub (needle : List Char) : List Char → Bool
  | [] => needle.isEmpty
  | c :: rest => needle.isPrefixOf (c :: rest) || containsSub needle rest

/-- The exception filter of `tts_service_backup.generate_speech`
(lines 138, 151, 162): `"language" in str(e) and "multi-lingual" in str(e)`. -/
def langCapErr (e : String) : Bool :=
  containsSub "language".data e.data && containsSub "multi-lingual".data e.data

/-- `f"generated_{hash(text + reference_audio_filename)}.wav"` —
the output file name derivation of `tts_service.py` line 103 and
`hybrid_tts_service.py` line 413.  `pyHash` abstracts Python's builtin
`hash`, which is a fixed function on strings within one process. -/
def output_filename (pyHash : String → Int) (text reference_audio_filename : String) : String :=
  "generated_" ++ toString (pyHash (text ++ reference_audio_filename)) ++ ".wav"

/-- Keyword arguments of a `tts_model.tts(...)` inference call. -/
structure TTSArgs where
  text : String
  speaker_wav : Option String := none
  language : Option String := none
  deriving DecidableEq

/-- Environment for the synthesis paths of the two legacy services:
whether the loaded model's `tts` accepts `speaker_wav` (the `hasattr` /
`co_varnames` probe), whether a reference file exists on disk, and the
outcome of the `i`-th inference call made so far (`.error e` models the
call raising an exception with message `e`). -/
structure GenEnv where
  hasSpeakerWav : Bool
  refExists : String → Bool
  tts : Nat → TTSArgs → Except String Unit

/-- Record of the inference calls issued so far. -/
structure CallState where
  calls : List TTSArgs := []
  deriving DecidableEq

/-- Observable part of a Flask response used by the claims: HTTP status,
whether the body is a binary audio stream, the JSON `error` field and the
JSON `download_link` field. -/
structure HTTPResponse where
  status : Nat
  isAudio : Bool := false
  error : Option String := none
  download_link : Option String := none
  deriving DecidableEq

/-- JSON body of a legacy `/api/tts` request. -/
structure TtsBody where
  text : String := ""
  reference_audio_filename : Option String := none
  language : String := "pt"
  deriving DecidableEq

/-- JSON body of a hybrid `/generate` request. -/
structure GenBody where
  text : String := ""
  voice : String := ""
  deriving DecidableEq

namespace TtsService

/-- `MODEL_NAME` of `tts_service.py`. -/
def MODEL_NAME : String := "tts_models/pt/cv/vits"

/-- The fallback model of `tts_service.load_model`. -/
def MODEL_NAME_FALLBACK : String := "tts_models/en/ljspeech/tacotron2-DDC"

/-- Mutable globals of `tts_service.py`: the single cached handle, a
fresh-handle counter, and the list of model names passed to the `TTS`
constructor so far (its length is the number of constructor invocations). -/
structure ServiceState where
  tts_model : Option Nat := none
  nextHandle : Nat := 0
  ctorCalls : List String := []
  deriving DecidableEq

/-- `tts_service.load_model` (lines 31-51): memoize the global handle;
on first call try `MODEL_NAME`, then `MODEL_NAME_FALLBACK`; re-raise
(`none`) if both constructors fail.  `ctorOk i n` tells whether the `i`-th
constructor invocation of the process, on model name `n`, succeeds. -/
def load_model (ctorOk : Nat → String → Bool) (s : ServiceState) :
    Option Nat × ServiceState :=
  match s.tts_model with
  | some m => (some m, s)
  | none =>
    let i := s.ctorCalls.length
    let s1 := { s with ctorCalls := s.ctorCalls ++ [ MODEL_NAME ] }
    if ctorOk i MODEL_NAME then
      (some s1.nextHandle,
        { s1 with tts_model := some s1.nextHandle, nextHandle := s1.nextHandle + 1 })
    else
      let s2 := { s1 with ctorCalls := s1.ctorCalls ++ [ MODEL_NAME_FALLBACK ] }
      if ctorOk (i + 1) MODEL_NAME_FALLBACK then
        (some s2.nextHandle,
          { s2 with tts_model := some s2.nextHandle, nextHandle := s2.nextHandle + 1 })
      else (none, s2)

/-- A single `tts_model.tts(...)` invocation, recording the arguments. -/
def tts_call (env : GenEnv) (st : CallState) (args : TTSArgs) :
    Except String Unit × CallState :=
  (env.tts st.calls.length args, { st with calls := st.calls ++ [args] })

/-- `tts_service.generate_speech` (lines 53-88): strip quotes, then invoke
the model with `speaker_wav` and the request-supplied `language` when the
model supports references and the file exists, plain `tts(text=text)`
otherwise; `True` on success, `False` when the call raised. -/
def generate_speech (env : GenEnv) (st : CallState)
    (text reference_audio_filename language : String) : Bool × CallState :=
  let stext := sanitizedText text
  let r :=
    if env.hasSpeakerWav then
      if env.refExists reference_audio_filename then
        tts_call env st
          { text := stext, speaker_wav := some reference_audio_filename,
            language := some language }
      else
        tts_call env st { text := stext }
    else
      tts_call env st { text := stext }
  match r with
  | (.ok _, st1) => (true, st1)
  | (.error _, st1) => (false, st1)

/-- `tts_service.handle_tts_request` (lines 90-118): the `/api/tts` route. -/
def handle_tts_request (pyHash : String → Int) (env : GenEnv) (st : CallState)
    (data : Option TtsBody) : HTTPResponse × CallState :=
  match data with
  | none => ({ status := 500, error := some "Erro interno do servidor" }, st)
  | some body =>
    match body.reference_audio_filename with
    | none => ({ status := 400, error := some "reference_audio_filename é obrigatório" }, st)
    | some ref =>
      let output_name := output_filename pyHash body.text ref
      match generate_speech env st body.text ref body.language with
      | (true, st1) =>
        ({ status := 200, download_link := some ("/api/download/" ++ output_name) }, st1)
      | (false, st1) => ({ status := 500, error := some "Falha ao gerar áudio" }, st1)

/-- `tts_service.health_check` (lines 125-128): reports whether the single
global model handle is loaded. -/
def health_check (s : ServiceState) : Bool :=
  s.tts_model.isSome

end TtsService

namespace TtsServiceBackup

/-- The XTTS v2 model identifier used for every entry of `MODELS`. -/
def xtts_v2 : String := "tts_models/multilingual/multi-dataset/xtts_v2"

/-- The `MODELS` table of `tts_service_backup.py` (lines 17-22). -/
def MODELS : List (String × String) :=
  [("pt", xtts_v2), ("en", xtts_v2), ("es", xtts_v2), ("multilingual", xtts_v2)]

/-- `MODELS["pt"]` — evaluates to `xtts_v2`. -/
def pt_model : String := (MODELS.lookup "pt").getD xtts_v2

/-- `MODELS["multilingual"]` — the first fallback of `load_model`. -/
def multilingual_model : String := (MODELS.lookup "multilingual").getD xtts_v2

/-- `MODELS["en"]` — the final fallback of `load_model`. -/
def english_model : String := (MODELS.lookup "en").getD xtts_v2

/-- The `VOICE_LANGUAGES` table of `tts_service_backup.py` (lines 25-32). -/
def VOICE_LANGUAGES : List (String × String) :=
  [("Charlotte.WAV", "en"), ("Hamilton.WAV", "en"), ("Noel.WAV", "es"),
   ("Pilar.WAV", "es"), ("Paulo.WAV", "pt"), ("Ines.WAV", "pt")]

/-- Mutable globals of `tts_service_backup.py`: the `tts_models` dict
(association list, language key → handle), a fresh-handle counter, and the
list of model names passed to the `TTS` constructor so far. -/
structure LoadState where
  tts_models : List (String × Nat) := []
  nextHandle : Nat := 0
  ctorCalls : List String := []
  deriving DecidableEq

/-- Python dict assignment `d[k] = v` on an association list. -/
def setKey (k : String) (v : Nat) : List (String × Nat) → List (String × Nat)
  | [] => [(k, v)]
  | (k1, v1) :: t => if k1 = k then (k, v) :: t else (k1, v1) :: setKey k v t

/-- `tts_service_backup.load_model` (lines 61-106): if the requested
language key is uncached, resolve the model name (falling back to the
`"pt"` entry — and *rebinding the cache key to `"pt"`* — when the language
is not in `MODELS`), then try the primary constructor, the multilingual
fallback and the English fallback in order; cache and return the first
handle that initializes, re-raise (`none`) if all three fail. -/
def load_model (ctorOk : Nat → String → Bool) (language : String) (s : LoadState) :
    Option Nat × LoadState :=
  match s.tts_models.lookup language with
  | some m => (some m, s)
  | none =>
    let p :=
      match MODELS.lookup language with
      | some m => (m, language)
      | none => (pt_model, "pt")
    let model_name := p.1
    let lang2 := p.2
    let i := s.ctorCalls.length
    let s1 := { s with ctorCalls := s.ctorCalls ++ [model_name] }
    if ctorOk i model_name then
      (some s1.nextHandle,
        { s1 with tts_models := setKey lang2 s1.nextHandle s1.tts_models,
                  nextHandle := s1.nextHandle + 1 })
    else
      let s2 := { s1 with ctorCalls := s1.ctorCalls ++ [multilingual_model] }
      if ctorOk (i + 1) multilingual_model then
        (some s2.nextHandle,
          { s2 with tts_models := setKey lang2 s2.nextHandle s2.tts_models,
                    nextHandle := s2.nextHandle + 1 })
      else
        let s3 := { s2 with ctorCalls := s2.ctorCalls ++ [english_model] }
        if ctorOk (i + 2) english_model then
          (some s3.nextHandle,
            { s3 with tts_models := setKey lang2 s3.nextHandle s3.tts_models,
                      nextHandle := s3.nextHandle + 1 })
        else (none, s3)

/-- Mutable state visible to `tts_service_backup.generate_speech`:
the model cache plus the record of inference calls issued so far. -/
structure GenState where
  load : LoadState := {}
  calls : List TTSArgs := []
  deriving DecidableEq

/-- The `try: tts(..., language=...) except` pattern repeated at lines
131-145, 148-155 and 159-166 of `tts_service_backup.py`: issue the call;
if it raises with a message naming both `"language"` and `"multi-lingual"`,
retry the identical call without the `language` argument; re-raise any
other exception unchanged. -/
def tts_try (env : GenEnv) (st : GenState) (args : TTSArgs) :
    Except String Unit × GenState :=
  let i := st.calls.length
  let st1 := { st with calls := st.calls ++ [args] }
  match env.tts i args with
  | .ok u => (.ok u, st1)
  | .error e =>
    if langCapErr e then
      let args2 := { args with language := none }
      let st2 := { st1 with calls := st1.calls ++ [args2] }
      (env.tts (i + 1) args2, st2)
    else (.error e, st1)

/-- `tts_service_backup.generate_speech` (lines 108-175): strip quotes,
map the reference file to its registry language (defaulting to the
request's language for unregistered files), load the per-language model
(an exception there is caught and yields `False`), then issue the
inference call — with `speaker_wav` when supported and present — through
the language-capability retry wrapper. -/
def generate_speech (ctorOk : Nat → String → Bool) (env : GenEnv) (st : GenState)
    (text reference_audio_filename language : String) : Bool × GenState :=
  let stext := sanitizedText text
  let voice_language := (VOICE_LANGUAGES.lookup reference_audio_filename).getD language
  match load_model ctorOk voice_language st.load with
  | (none, ls) => (false, { st with load := ls })
  | (some _, ls) =>
    let st1 := { st with load := ls }
    let r :=
      if env.hasSpeakerWav then
        if env.refExists reference_audio_filename then
          tts_try env st1
            { text := stext, speaker_wav := some reference_audio_filename,
              language := some voice_language }
        else
          tts_try env st1 { text := stext, language := some voice_language }
      else
        tts_try env st1 { text := stext, language := some voice_language }
    match r with
    | (.ok _, st2) => (true, st2)
    | (.error _, st2) => (false, st2)

/-- The cache key that `load_model` actually binds for a requested
language: the language itself when it is configured in `MODELS`, and
`"pt"` otherwise — lines 68-72 of `tts_service_backup.py` rebind
`language` to `"pt"` before the constructor runs, so an off-table request
writes (and clobbers) the `"pt"` entry. -/
def effKey (language : String) : String :=
  if (MODELS.lookup language).isSome then language else "pt"

/-- A sequence of `load_model` calls, threading the mutable globals — the
only code that ever mutates the `tts_models` cache. -/
def load_many (ctorOk : Nat → String → Bool) (s : LoadState) :
    List String → LoadState
  | [] => s
  | language :: rest => load_many ctorOk ((load_model ctorOk language s).2) rest

/-- `tts_service_backup.health_check` (lines 221-224): the `models_loaded`
field lists the keys of the `tts_models` cache — i.e. the engine keys for
which a model handle has actually been initialized. -/
def health_check (s : LoadState) : List String :=
  s.tts_models.map Prod.fst

end TtsServiceBackup

namespace Hybrid

/-- One entry of the hybrid service's `voice_config` registry. -/
structure VoiceCfg where
  engine : String
  language : String
  gender : String
  audio_file : String
  deriving DecidableEq

/-- The `voice_config` registry of `hybrid_tts_service.py` (lines 65-107). -/
def voice_config : List (String × VoiceCfg) :=
  [("Charlotte", ⟨"chatterbox", "en", "female", "Charlotte.WAV"⟩),
   ("Hamilton", ⟨"chatterbox", "en", "male", "Hamilton.WAV"⟩),
   ("Noel", ⟨"xtts", "es", "male", "Noel.WAV"⟩),
   ("Pilar", ⟨"xtts", "es", "female", "Pilar.WAV"⟩),
   ("Paulo", ⟨"xtts", "pt", "male", "Paulo.WAV"⟩),
   ("Ines", ⟨"xtts", "pt", "female", "Ines.WAV"⟩)]

/-- A waveform value as observed by the coordination layer: whether it is
still a framework (`torch`) tensor, and its array shape (list of
dimension sizes). -/
structure AudioData where
  isTensor : Bool
  shape : List Nat
  deriving DecidableEq

/-- Second component of the `(success, audio_data_or_error_message,
sample_rate)` triple returned by `HybridTTSService.generate_speech`. -/
inductive Payload where
  | audio (a : AudioData)
  | err (msg : String)
  deriving DecidableEq

/-- Whether a payload is a waveform (as opposed to an error string). -/
def Payload.isAudio : Payload → Bool
  | .audio _ => true
  | .err _ => false

/-- The error string of a payload (empty for audio payloads). -/
def Payload.msg : Payload → String
  | .audio _ => ""
  | .err m => m

/-- An inference invocation handed to one of the two engines. -/
inductive EngineCall where
  | chatterbox (text audio_prompt_path : String)
  | xtts (text speaker_wav language : String)
  deriving DecidableEq

/-- Environment of the hybrid service: outcomes of the two model
constructors, filesystem queries, and the two engines' inference calls.
`chatterboxGen` yields the waveform object returned by
`chatterbox_model.generate`; `xttsGen` yields the (shape, sample rate)
read back by `sf.read` from the file `xtts_model.tts_to_file` produced
(`.error` models either step raising). -/
structure HybridEnv where
  chatterboxLoadOk : Bool
  xttsLoadOk : Bool
  chatterboxHandle : Nat
  xttsHandle : Nat
  refExists : String → Bool
  chatterboxGen : String → String → Except String AudioData
  chatterboxSr : Nat
  xttsGen : String → String → String → Except String (List Nat × Nat)

/-- Mutable state of a `HybridTTSService` instance, plus the record of
engine inference calls issued so far. -/
structure HybridState where
  chatterbox_model : Option Nat := none
  xtts_model : Option Nat := none
  trace : List EngineCall := []
  deriving DecidableEq

/-- `HybridTTSService._load_chatterbox` (lines 111-127): memoized; on a
failed constructor the handle stays `None` and `False` is returned. -/
def _load_chatterbox (env : HybridEnv) (st : HybridState) : Bool × HybridState :=
  if st.chatterbox_model.isSome then (true, st)
  else if env.chatterboxLoadOk then
    (true, { st with chatterbox_model := some env.chatterboxHandle })
  else (false, st)

/-- `HybridTTSService._load_xtts` (lines 129-165): memoized; on a failed
constructor the handle stays `None` and `False` is returned. -/
def _load_xtts (env : HybridEnv) (st : HybridState) : Bool × HybridState :=
  if st.xtts_model.isSome then (true, st)
  else if env.xttsLoadOk then
    (true, { st with xtts_model := some env.xttsHandle })
  else (false, st)

/-- `numpy.squeeze`: drop every axis of size 1. -/
def numpySqueeze (shape : List Nat) : List Nat :=
  shape.filter (fun n => n != 1)

/-- Lines 224-230 of `hybrid_tts_service.py`: convert a torch tensor to a
numpy array, then `squeeze()` whenever the array has more than one axis. -/
def chatterboxNormalize (a : AudioData) : AudioData :=
  let a1 := if a.isTensor then { a with isTensor := false } else a
  if a1.shape.length > 1 then { a1 with shape := numpySqueeze a1.shape } else a1

/-- `HybridTTSService._generate_chatterbox` (lines 208-244).  The
`output_path` file write has no effect on the returned triple. -/
def _generate_chatterbox (env : HybridEnv) (st : HybridState)
    (text : String) (reference_audio_path : String) (_output_path : Option String) :
    (Bool × Payload × Option Nat) × HybridState :=
  match _load_chatterbox env st with
  | (false, st1) => ((false, .err "Failed to load Chatterbox model", none), st1)
  | (true, st1) =>
    let st2 := { st1 with trace := st1.trace ++ [.chatterbox text reference_audio_path] }
    match env.chatterboxGen text reference_audio_path with
    | .error e => ((false, .err ("Chatterbox generation failed: " ++ e), none), st2)
    | .ok a =>
      ((true, .audio (chatterboxNormalize a), some env.chatterboxSr), st2)

/-- `HybridTTSService._generate_xtts` (lines 246-289): generate into a
temp file and read it back with `sf.read`; the waveform is returned
exactly as read (a plain numpy array of whatever shape the file holds),
with the sample rate reported by `sf.read`. -/
def _generate_xtts (env : HybridEnv) (st : HybridState)
    (text : String) (cfg : VoiceCfg) (reference_audio_path : String)
    (_output_path : Option String) :
    (Bool × Payload × Option Nat) × HybridState :=
  match _load_xtts env st with
  | (false, st1) => ((false, .err "Failed to load XTTS v2 model", none), st1)
  | (true, st1) =>
    let st2 := { st1 with trace := st1.trace ++ [.xtts text reference_audio_path cfg.language] }
    match env.xttsGen text reference_audio_path cfg.language with
    | .error e => ((false, .err ("XTTS v2 generation failed: " ++ e), none), st2)
    | .ok (shape, sample_rate) =>
      ((true, .audio ⟨false, shape⟩, some sample_rate), st2)

/-- `HybridTTSService.generate_speech` (lines 167-206): validate the
voice, check the reference file, and dispatch on the registry's engine
kind; every failure is caught and returned as a `(False, message, None)`
triple. -/
def generate_speech (env : HybridEnv) (st : HybridState)
    (text voice_name : String) (output_path : Option String) :
    (Bool × Payload × Option Nat) × HybridState :=
  match voice_config.lookup voice_name with
  | none => ((false, .err ("Unknown voice: " ++ voice_name), none), st)
  | some cfg =>
    if !env.refExists cfg.audio_file then
      ((false, .err ("Reference audio not found: " ++ cfg.audio_file), none), st)
    else if cfg.engine = "chatterbox" then
      _generate_chatterbox env st text cfg.audio_file output_path
    else if cfg.engine = "xtts" then
      _generate_xtts env st text cfg cfg.audio_file output_path
    else
      ((false, .err ("Unknown engine: " ++ cfg.engine), none), st)

/-- The `voices` field of the hybrid `/health` response (lines 306-313):
`list(hybrid_tts.voice_config.keys())` — computed from the static
registry, regardless of the service state. -/
def health_check (_st : HybridState) : List String :=
  voice_config.map Prod.fst

/-- Modelled from the spec: "A `/health` style endpoint reports ... which
engine keys are currently loaded (not which are merely registered)" — the
engine keys for which a model handle has actually been initialized in the
given state. -/
def spec_loaded_engine_keys (st : HybridState) : List String :=
  (if st.chatterbox_model.isSome then ["chatterbox"] else []) ++
  (if st.xtts_model.isSome then ["xtts"] else [])

/-- The `/generate` route (lines 323-381): reject a missing body, a text
or voice that is empty after trimming, and an unregistered voice with
HTTP 400 and a JSON error, before any engine work; otherwise dispatch and
map failure to 500 and success to a binary WAV response. -/
def route_generate (env : HybridEnv) (st : HybridState) (data : Option GenBody) :
    HTTPResponse × HybridState :=
  match data with
  | none => ({ status := 400, error := some "No JSON data provided" }, st)
  | some body =>
    let text := pyStrip body.text
    let voice := pyStrip body.voice
    if text = "" then ({ status := 400, error := some "Text is required" }, st)
    else if voice = "" then ({ status := 400, error := some "Voice is required" }, st)
    else
      match voice_config.lookup voice with
      | none => ({ status := 400, error := some ("Unknown voice: " ++ voice) }, st)
      | some _ =>
        match generate_speech env st text voice none with
        | ((false, p, _), st1) => ({ status := 500, error := some p.msg }, st1)
        | ((true, _, _), st1) => ({ status := 200, isAudio := true }, st1)

/-- The legacy `/api/tts` route (lines 383-426): only
`reference_audio_filename` is validated; the text — even empty — and the
voice derived by stripping `.WAV`/`.wav` from the filename go straight to
`generate_speech`; the request's `language` field is read but never used.
A missing body raises inside the handler and yields the 500 branch. -/
def route_api_tts (pyHash : String → Int) (env : HybridEnv) (st : HybridState)
    (data : Option TtsBody) : HTTPResponse × HybridState :=
  match data with
  | none => ({ status := 500, error := some "Erro interno do servidor" }, st)
  | some body =>
    match body.reference_audio_filename with
    | none => ({ status := 400, error := some "reference_audio_filename é obrigatório" }, st)
    | some ref =>
      let voice_name := removeAll (removeAll ref ".WAV") ".wav"
      match generate_speech env st body.text voice_name none with
      | ((false, p, _), st1) => ({ status := 500, error := some p.msg }, st1)
      | ((true, _, _), st1) =>
        let output_name := output_filename pyHash body.text ref
        ({ status := 200, download_link := some ("/api/download/" ++ output_name) }, st1)

end Hybrid

/-- A constructor environment in which every model initialization succeeds. -/
def ctorAllOk : Nat → String → Bool := fun _ _ => true

/-- A constructor environment in which only the first initialization of the
process fails (the primary attempt) and every later one succeeds. -/
def ctorSkipFirst : Nat → String → Bool := fun i _ => i != 0

/-- A hybrid environment in which every load, file check and inference
succeeds; chatterbox returns a 1-D tensor, xtts's output file reads back as
a two-channel (two-axis) array. -/
def hybridEnvOk : Hybrid.HybridEnv where
  chatterboxLoadOk := true
  xttsLoadOk := true
  chatterboxHandle := 0
  xttsHandle := 1
  refExists := fun _ => true
  chatterboxGen := fun _ _ => .ok ⟨true, [3]⟩
  chatterboxSr := 24000
  xttsGen := fun _ _ _ => .ok ([5, 2], 22050)

/-- A legacy-service environment in which the model supports
`speaker_wav`, every reference file exists, and every inference succeeds. -/
def genEnvOk : GenEnv where
  hasSpeakerWav := true
  refExists := fun _ => true
  tts := fun _ _ => .ok ()

/-- A text containing an embedded straight double quote. -/
def quotedText : String := String.mk [dquoteChar, 'h', 'i']

theorem lookup_setKey_self (k : String) (v : Nat) (l : List (String × Nat)) :
    (TtsServiceBackup.setKey k v l).lookup k = some v := by
  induction l with
  | nil => simp [TtsServiceBackup.setKey, List.lookup]
  | cons hd t ih =>
    obtain ⟨k1, v1⟩ := hd
    by_cases hk : k1 = k
    · simp [TtsServiceBackup.setKey, hk, List.lookup_cons]
    · simp only [TtsServiceBackup.setKey, hk, if_false, List.lookup_cons,
        beq_false_of_ne (Ne.symm hk)]
      exact ih

theorem mem_map_fst_iff_lookup (l : List (String × Nat)) (k : String) :
    k ∈ l.map Prod.fst ↔ (l.lookup k).isSome := by
  induction l with
  | nil => simp
  | cons hd t ih =>
    obtain ⟨k1, v1⟩ := hd
    by_cases hk : k = k1
    · simp [hk, List.lookup_cons]
    · simp only [List.map_cons, List.mem_cons, List.lookup_cons,
        beq_false_of_ne hk]
      constructor
      · rintro (h | h)
        · exact absurd h hk
        · exact ih.mp h
      · intro h
        exact Or.inr (ih.mpr h)

theorem MODELS_lookup_eq (lang m : String)
    (h : TtsServiceBackup.MODELS.lookup lang = some m) :
    m = TtsServiceBackup.xtts_v2 := by
  simp only [TtsServiceBackup.MODELS, List.lookup_cons, List.lookup_nil] at h
  repeat' split at h
  all_goals simp_all

theorem replaceSubAux_singleton (q : Char) (fuel : Nat) (l : List Char)
    (hf : l.length ≤ fuel) :
    replaceSubAux [q] fuel l = l.filter (fun x => x != q) := by
  induction fuel generalizing l with
  | zero =>
    have : l = [] := List.eq_nil_of_length_eq_zero (Nat.le_zero.mp hf)
    subst this
    simp [replaceSubAux]
  | succ fuel ih =>
    cases l with
    | nil => simp [replaceSubAux]
    | cons c rest =>
      rw [replaceSubAux]
      simp only [List.length_cons, Nat.succ_le_succ_iff] at hf
      by_cases hq : q = c
      · subst hq
        simp [List.isPrefixOf, ih rest hf]
      · simp [List.isPrefixOf, beq_false_of_ne hq, beq_false_of_ne (Ne.symm hq),
          ih rest hf, List.filter_cons, bne_iff_ne, Ne.symm hq]

theorem replaceSub_singleton (q : Char) (l : List Char) :
    replaceSub [q] l = l.filter (fun x => x != q) :=
  replaceSubAux_singleton q l.length l (Nat.le_refl _)

theorem mem_sanitized (t : String) (c : Char) (h : c ∈ (sanitizedText t).data) :
    c ≠ dquoteChar ∧ c ≠ squoteChar := by
  have hd : (sanitizedText t).data =
      (t.data.filter (fun x => x != dquoteChar)).filter (fun x => x != squoteChar) := by
    simp [sanitizedText, removeAll, dquoteStr, squoteStr, replaceSub_singleton]
  rw [hd] at h
  simp only [List.mem_filter, bne_iff_ne, ne_eq] at h
  exact ⟨h.1.2, h.2⟩

/-- Claim C9 (confirmed): the persisted output file name is a deterministic
function of the concatenation of the request text and the reference-audio
identifier alone — whenever `text1 ++ ref1 = text2 ++ ref2` (including
pairs with a different split point) the derived names coincide, and equal
pairs always derive equal names. -/
theorem C9_filename_from_concat (pyHash : String → Int) (t1 r1 t2 r2 : String)
    (h : t1 ++ r1 = t2 ++ r2) :
    output_filename pyHash t1 r1 = output_filename pyHash t2 r2 := by
  simp [output_filename, h]

/-- Witness for C9 at a concrete split-shifted pair. -/
theorem C9_filename_from_concat_witness :
    ("ab" ++ "c" = "a" ++ "bc") ∧
      output_filename (fun s => (s.length : Int)) "ab" "c" =
        output_filename (fun s => (s.length : Int)) "a" "bc" :=
  ⟨by decide,
    C9_filename_from_concat (fun s => (s.length : Int)) "ab" "c" "a" "bc" (by decide)⟩

/-- Claim C10 (confirmed): the hybrid dispatcher's `generate_speech` is
total and never propagates an exception; its `(success, payload,
sample_rate)` triple satisfies: `sample_rate` is present exactly when
`success` is true, and the payload is a waveform exactly when `success` is
true (an error string exactly when it is false). -/
theorem C10_generate_speech_total (env : Hybrid.HybridEnv) (st : Hybrid.HybridState)
    (text voice_name : String) (output_path : Option String) :
    ((Hybrid.generate_speech env st text voice_name output_path).1.2.2).isSome
        = (Hybrid.generate_speech env st text voice_name output_path).1.1 ∧
      ((Hybrid.generate_speech env st text voice_name output_path).1.2.1).isAudio
        = (Hybrid.generate_speech env st text voice_name output_path).1.1 := by
  unfold Hybrid.generate_speech Hybrid._generate_chatterbox Hybrid._generate_xtts
  repeat' split
  all_goals simp_all [Hybrid.Payload.isAudio]

/-- Claim C8 (corrected), counterexample: with no model loaded at all, the
hybrid `/health` response lists every registered voice, while the set of
loaded engine keys is empty — the endpoint reports the static registry,
not what is loaded. -/
theorem C8_counterexample :
    Hybrid.health_check {} =
        ["Charlotte", "Hamilton", "Noel", "Pilar", "Paulo", "Ines"] ∧
      Hybrid.spec_loaded_engine_keys {} = [] ∧
      Hybrid.health_check {} ≠ Hybrid.spec_loaded_engine_keys {} := by
  decide

/-- Claim C8 (corrected), amended: the backup service's health endpoint
does report exactly the engine keys with an initialized handle (a key is
listed iff a handle is cached for it), while the hybrid service's health
endpoint is a constant function of the state — it lists the registered
voices whatever is loaded. -/
theorem C8_amended (s : TtsServiceBackup.LoadState) (k : String)
    (st st1 : Hybrid.HybridState) :
    (k ∈ TtsServiceBackup.health_check s ↔ (s.tts_models.lookup k).isSome) ∧
      Hybrid.health_check st = Hybrid.health_check st1 :=
  ⟨mem_map_fst_iff_lookup s.tts_models k, rfl⟩

theorem load_model_cached (ctorOk : Nat → String → Bool) (lang : String)
    (s : TtsServiceBackup.LoadState) (h : Nat)
    (hc : s.tts_models.lookup lang = some h) :
    TtsServiceBackup.load_model ctorOk lang s = (some h, s) := by
  simp [TtsServiceBackup.load_model, hc]

theorem load_model_success_caches (ctorOk : Nat → String → Bool) (lang : String)
    (s : TtsServiceBackup.LoadState) (h : Nat)
    (hm : (TtsServiceBackup.MODELS.lookup lang).isSome)
    (hr : (TtsServiceBackup.load_model ctorOk lang s).1 = some h) :
    ((TtsServiceBackup.load_model ctorOk lang s).2).tts_models.lookup lang = some h := by
  cases hc : s.tts_models.lookup lang with
  | some m =>
    rw [load_model_cached ctorOk lang s m hc] at hr ⊢
    simp only at hr
    injection hr with hr
    rw [← hr]
    exact hc
  | none =>
    obtain ⟨m0, hm0⟩ := Option.isSome_iff_exists.mp hm
    simp only [TtsServiceBackup.load_model, hc, hm0] at hr ⊢
    by_cases h0 : ctorOk s.ctorCalls.length m0
    · simp only [h0, if_true] at hr ⊢
      injection hr with hr
      rw [← hr]
      exact lookup_setKey_self lang s.nextHandle s.tts_models
    · simp only [h0, Bool.false_eq_true, if_false] at hr ⊢
      by_cases h1 : ctorOk (s.ctorCalls.length + 1) TtsServiceBackup.multilingual_model
      · simp only [h1, if_true] at hr ⊢
        injection hr with hr
        rw [← hr]
        exact lookup_setKey_self lang s.nextHandle s.tts_models
      · simp only [h1, Bool.false_eq_true, if_false] at hr ⊢
        by_cases h2 : ctorOk (s.ctorCalls.length + 2) TtsServiceBackup.english_model
        · simp only [h2, if_true] at hr ⊢
          injection hr with hr
          rw [← hr]
          exact lookup_setKey_self lang s.nextHandle s.tts_models
        · simp only [h2, Bool.false_eq_true, if_false] at hr
          exact absurd hr (by simp)

/-- Claim C1 (corrected), counterexample: in the backup service, a load
call with the unconfigured language key "fr" succeeds (caching under
"pt"), yet the very next load call with the same key "fr" runs the model
constructor again and returns a different handle — two constructor runs
and two distinct handles for one key.  The rebinding also clobbers the
`"pt"` cache entry: after a successful load of the table key "pt"
(handle 0), an intervening load of "fr" overwrites `tts_models["pt"]`,
and the next load of "pt" returns a different handle (1). -/
theorem C1_counterexample :
    ((TtsServiceBackup.load_model ctorAllOk "fr" {}).1 = some 0 ∧
      (TtsServiceBackup.load_model ctorAllOk "fr"
          (TtsServiceBackup.load_model ctorAllOk "fr" {}).2).1 = some 1 ∧
      ((TtsServiceBackup.load_model ctorAllOk "fr"
          (TtsServiceBackup.load_model ctorAllOk "fr" {}).2).2).ctorCalls.length = 2) ∧
      ((TtsServiceBackup.load_model ctorAllOk "pt" {}).1 = some 0 ∧
        (TtsServiceBackup.load_model ctorAllOk "pt"
          ((TtsServiceBackup.load_model ctorAllOk "fr"
            ((TtsServiceBackup.load_model ctorAllOk "pt" {}).2)).2)).1 = some 1) := by
  decide

theorem lookup_setKey_ne (k a : String) (v : Nat) (l : List (String × Nat))
    (hne : k ≠ a) : (TtsServiceBackup.setKey k v l).lookup a = l.lookup a := by
  induction l with
  | nil =>
    simp [TtsServiceBackup.setKey, List.lookup_cons, beq_false_of_ne (Ne.symm hne)]
  | cons hd t ih =>
    obtain ⟨k1, v1⟩ := hd
    by_cases hk : k1 = k
    · subst hk
      simp [TtsServiceBackup.setKey, List.lookup_cons, beq_false_of_ne (Ne.symm hne)]
    · simp only [TtsServiceBackup.setKey, hk, if_false, List.lookup_cons]
      cases hak : a == k1 <;> simp [ih]

theorem load_model_cache_update (ctorOk : Nat → String → Bool) (lang1 : String)
    (s : TtsServiceBackup.LoadState) :
    ((TtsServiceBackup.load_model ctorOk lang1 s).2).tts_models = s.tts_models ∨
      (s.tts_models.lookup lang1 = none ∧ ∃ v,
        ((TtsServiceBackup.load_model ctorOk lang1 s).2).tts_models =
          TtsServiceBackup.setKey (TtsServiceBackup.effKey lang1) v s.tts_models) := by
  cases hc : s.tts_models.lookup lang1 with
  | some m =>
    rw [load_model_cached ctorOk lang1 s m hc]
    exact Or.inl rfl
  | none =>
    cases hm : TtsServiceBackup.MODELS.lookup lang1 with
    | some m0 =>
      have hek : TtsServiceBackup.effKey lang1 = lang1 := by
        simp [TtsServiceBackup.effKey, hm]
      rw [hek]
      simp only [TtsServiceBackup.load_model, hc, hm]
      by_cases h0 : ctorOk s.ctorCalls.length m0
      · simp only [h0, if_true]
        exact Or.inr ⟨trivial, _, rfl⟩
      · simp only [h0, Bool.false_eq_true, if_false]
        by_cases h1 : ctorOk (s.ctorCalls.length + 1) TtsServiceBackup.multilingual_model
        · simp only [h1, if_true]
          exact Or.inr ⟨trivial, _, rfl⟩
        · simp only [h1, Bool.false_eq_true, if_false]
          by_cases h2 : ctorOk (s.ctorCalls.length + 2) TtsServiceBackup.english_model
          · simp only [h2, if_true]
            exact Or.inr ⟨trivial, _, rfl⟩
          · simp only [h2, Bool.false_eq_true, if_false]
            exact Or.inl trivial
    | none =>
      have hek : TtsServiceBackup.effKey lang1 = "pt" := by
        simp [TtsServiceBackup.effKey, hm]
      rw [hek]
      simp only [TtsServiceBackup.load_model, hc, hm]
      by_cases h0 : ctorOk s.ctorCalls.length TtsServiceBackup.pt_model
      · simp only [h0, if_true]
        exact Or.inr ⟨trivial, _, rfl⟩
      · simp only [h0, Bool.false_eq_true, if_false]
        by_cases h1 : ctorOk (s.ctorCalls.length + 1) TtsServiceBackup.multilingual_model
        · simp only [h1, if_true]
          exact Or.inr ⟨trivial, _, rfl⟩
        · simp only [h1, Bool.false_eq_true, if_false]
          by_cases h2 : ctorOk (s.ctorCalls.length + 2) TtsServiceBackup.english_model
          · simp only [h2, if_true]
            exact Or.inr ⟨trivial, _, rfl⟩
          · simp only [h2, Bool.false_eq_true, if_false]
            exact Or.inl trivial


theorem load_model_preserves (ctorOk : Nat → String → Bool) (lang1 lang : String)
    (s : TtsServiceBackup.LoadState) (h : Nat)
    (hcache : s.tts_models.lookup lang = some h)
    (hcond : lang1 = lang ∨ TtsServiceBackup.effKey lang1 ≠ lang) :
    ((TtsServiceBackup.load_model ctorOk lang1 s).2).tts_models.lookup lang = some h := by
  rcases load_model_cache_update ctorOk lang1 s with heq | ⟨hnone, v, heq⟩
  · rw [heq]
    exact hcache
  · have hne : TtsServiceBackup.effKey lang1 ≠ lang := by
      rcases hcond with rfl | hcond
      · rw [hnone] at hcache
        exact absurd hcache (by simp)
      · exact hcond
    rw [heq, lookup_setKey_ne _ _ _ _ hne]
    exact hcache

theorem load_many_preserves (ctorOk : Nat → String → Bool) (langs : List String)
    (lang : String) (h : Nat) :
    ∀ s : TtsServiceBackup.LoadState, s.tts_models.lookup lang = some h →
      (∀ l ∈ langs, l = lang ∨ TtsServiceBackup.effKey l ≠ lang) →
      (TtsServiceBackup.load_many ctorOk s langs).tts_models.lookup lang = some h := by
  induction langs with
  | nil =>
    intro s hc _
    exact hc
  | cons l rest ih =>
    intro s hc hsafe
    simp only [TtsServiceBackup.load_many]
    exact ih _ (load_model_preserves ctorOk l lang s h hc (hsafe l (by simp)))
      (fun x hx => hsafe x (by simp [hx]))

/-- Claim C1 (corrected), amended: a load call only ever rebinds the cache
entry of its *effective* key — the requested key when that key is in the
`MODELS` table, and `"pt"` otherwise.  Consequently, for every key in the
table, once a load call has succeeded for it with handle `h`, every
subsequent load call with the same key returns exactly `(h, state
unchanged)` — the identical cached handle, no constructor run — provided
each intervening load call's key either equals this key or has a
different effective key (in particular, whenever every intervening call
uses a key from the table).  An off-table key is never cached under
itself, so each call with it re-runs the constructor and clobbers the
`"pt"` entry — which is why the proviso is needed and why the
counterexample's repeated `"fr"` loads yield distinct handles.  For the
hybrid loaders, keyed by engine kind alone: once the xtts handle is set,
`_load_xtts` returns it with the state unchanged. -/
theorem C1_amended (ctorOk : Nat → String → Bool) (lang : String)
    (s : TtsServiceBackup.LoadState) (h : Nat) (langs : List String)
    (henv : Hybrid.HybridEnv) (hst : Hybrid.HybridState) (u : Nat)
    (hm : (TtsServiceBackup.MODELS.lookup lang).isSome)
    (hr : (TtsServiceBackup.load_model ctorOk lang s).1 = some h)
    (hsafe : ∀ l ∈ langs, l = lang ∨ TtsServiceBackup.effKey l ≠ lang)
    (hx : hst.xtts_model = some u) :
    TtsServiceBackup.load_model ctorOk lang
        (TtsServiceBackup.load_many ctorOk
          ((TtsServiceBackup.load_model ctorOk lang s).2) langs) =
      (some h,
        TtsServiceBackup.load_many ctorOk
          ((TtsServiceBackup.load_model ctorOk lang s).2) langs) ∧
      Hybrid._load_xtts henv hst = (true, hst) := by
  constructor
  · exact load_model_cached _ _ _ _
      (load_many_preserves ctorOk langs lang h _
        (load_model_success_caches ctorOk lang s h hm hr) hsafe)
  · simp [Hybrid._load_xtts, hx]

/-- Witness for C1's amended theorem: a successful load of "pt", an
intervening load of the distinct table key "en", and a second load of
"pt" that returns the original handle with no state change. -/
theorem C1_amended_witness :
    (TtsServiceBackup.MODELS.lookup "pt").isSome ∧
      (TtsServiceBackup.load_model ctorAllOk "pt" {}).1 = some 0 ∧
      (∀ l ∈ ["en"], l = "pt" ∨ TtsServiceBackup.effKey l ≠ "pt") ∧
      ({ xtts_model := some 1 } : Hybrid.HybridState).xtts_model = some 1 ∧
      (TtsServiceBackup.load_model ctorAllOk "pt"
          (TtsServiceBackup.load_many ctorAllOk
            ((TtsServiceBackup.load_model ctorAllOk "pt" {}).2) ["en"]) =
        (some 0,
          TtsServiceBackup.load_many ctorAllOk
            ((TtsServiceBackup.load_model ctorAllOk "pt" {}).2) ["en"]) ∧
        Hybrid._load_xtts hybridEnvOk { xtts_model := some 1 } =
          (true, { xtts_model := some 1 })) :=
  ⟨by decide, by decide, by decide, rfl,
    C1_amended ctorAllOk "pt" {} 0 ["en"] hybridEnvOk { xtts_model := some 1 } 1
      (by decide) (by decide) (by decide) rfl⟩

/-- Claim C2 (confirmed): for an uncached configured key, if the primary
constructor fails but some model in the ordered fallback list initializes,
`load_model` returns that handle (the fresh handle `s.nextHandle`) and
caches it for the key without raising; if the primary and every fallback
fail, it raises (`none`).  Stated for both fallback loaders: the backup
service (fallbacks: multilingual then English XTTS) and `tts_service.py`
(single tacotron2 fallback). -/
theorem C2_fallback_chain (ctorOk : Nat → String → Bool) (lang : String)
    (s : TtsServiceBackup.LoadState) (s1 : TtsService.ServiceState)
    (hc : s.tts_models.lookup lang = none)
    (hm : (TtsServiceBackup.MODELS.lookup lang).isSome)
    (hc1 : s1.tts_model = none) :
    ((ctorOk s.ctorCalls.length TtsServiceBackup.xtts_v2 = false →
        (ctorOk (s.ctorCalls.length + 1) TtsServiceBackup.multilingual_model = true ∨
          ctorOk (s.ctorCalls.length + 2) TtsServiceBackup.english_model = true) →
        (TtsServiceBackup.load_model ctorOk lang s).1 = some s.nextHandle ∧
          ((TtsServiceBackup.load_model ctorOk lang s).2).tts_models.lookup lang =
            some s.nextHandle) ∧
      (ctorOk s.ctorCalls.length TtsServiceBackup.xtts_v2 = false →
        ctorOk (s.ctorCalls.length + 1) TtsServiceBackup.multilingual_model = false →
        ctorOk (s.ctorCalls.length + 2) TtsServiceBackup.english_model = false →
        (TtsServiceBackup.load_model ctorOk lang s).1 = none)) ∧
    ((ctorOk s1.ctorCalls.length TtsService.MODEL_NAME = false →
        ctorOk (s1.ctorCalls.length + 1) TtsService.MODEL_NAME_FALLBACK = true →
        (TtsService.load_model ctorOk s1).1 = some s1.nextHandle ∧
          ((TtsService.load_model ctorOk s1).2).tts_model = some s1.nextHandle) ∧
      (ctorOk s1.ctorCalls.length TtsService.MODEL_NAME = false →
        ctorOk (s1.ctorCalls.length + 1) TtsService.MODEL_NAME_FALLBACK = false →
        (TtsService.load_model ctorOk s1).1 = none)) := by
  obtain ⟨m0, hm0⟩ := Option.isSome_iff_exists.mp hm
  have hx : m0 = TtsServiceBackup.xtts_v2 := MODELS_lookup_eq lang m0 hm0
  subst hx
  refine ⟨⟨?_, ?_⟩, ?_, ?_⟩
  · intro h0 h12
    simp only [TtsServiceBackup.load_model, hc, hm0, h0, Bool.false_eq_true, if_false]
    by_cases h1 : ctorOk (s.ctorCalls.length + 1) TtsServiceBackup.multilingual_model
    · simp only [h1, if_true]
      exact ⟨trivial, lookup_setKey_self lang s.nextHandle s.tts_models⟩
    · rcases h12 with h12 | h12
      · exact absurd h12 h1
      · simp only [h1, Bool.false_eq_true, if_false, h12, if_true]
        exact ⟨trivial, lookup_setKey_self lang s.nextHandle s.tts_models⟩
  · intro h0 h1 h2
    simp [TtsServiceBackup.load_model, hc, hm0, h0, h1, h2]
  · intro h0 h1
    simp only [TtsService.load_model, hc1, h0, Bool.false_eq_true, if_false, h1, if_true]
    exact ⟨trivial, trivial⟩
  · intro h0 h1
    simp [TtsService.load_model, hc1, h0, h1]

/-- Witness for C2 at a concrete run whose primary constructor fails and
whose first fallback succeeds, in both services. -/
theorem C2_fallback_chain_witness :
    (({} : TtsServiceBackup.LoadState).tts_models.lookup "pt" = none) ∧
      (TtsServiceBackup.MODELS.lookup "pt").isSome ∧
      (({} : TtsService.ServiceState).tts_model = none) ∧
      (ctorSkipFirst 0 TtsServiceBackup.xtts_v2 = false) ∧
      ((TtsServiceBackup.load_model ctorSkipFirst "pt" {}).1 = some 0 ∧
        ((TtsServiceBackup.load_model ctorSkipFirst "pt" {}).2).tts_models.lookup "pt" =
          some 0) ∧
      ((TtsService.load_model ctorSkipFirst {}).1 = some 0 ∧
        ((TtsService.load_model ctorSkipFirst {}).2).tts_model = some 0) := by
  refine ⟨by decide, by decide, rfl, by decide, ?_, ?_⟩
  · exact (C2_fallback_chain ctorSkipFirst "pt" {} {} (by decide) (by decide) rfl).1.1
      (by decide) (Or.inl (by decide))
  · exact (C2_fallback_chain ctorSkipFirst "pt" {} {} (by decide) (by decide) rfl).2.1
      (by decide) (by decide)

/-- Claim C3 (corrected), counterexample: the hybrid dispatcher hands the
input text to the chatterbox engine verbatim — here a text containing a
straight double quote reaches the engine unchanged. -/
theorem C3_counterexample :
    (Hybrid.generate_speech hybridEnvOk {} quotedText "Charlotte" none).2.trace =
        [Hybrid.EngineCall.chatterbox quotedText "Charlotte.WAV"] ∧
      dquoteChar ∈ quotedText.data := by
  decide

theorem ts_generate_speech_calls (env : GenEnv) (st : CallState)
    (text reference_audio_filename language : String) :
    ∃ a, (TtsService.generate_speech env st text reference_audio_filename
        language).2.calls = st.calls ++ [a] ∧ a.text = sanitizedText text := by
  unfold TtsService.generate_speech TtsService.tts_call
  by_cases h1 : env.hasSpeakerWav
  · by_cases h2 : env.refExists reference_audio_filename
    · simp only [h1, h2, if_true]
      cases env.tts st.calls.length _ with
      | ok u => exact ⟨_, rfl, rfl⟩
      | error e => exact ⟨_, rfl, rfl⟩
    · simp only [h1, h2, Bool.false_eq_true, if_true, if_false]
      cases env.tts st.calls.length _ with
      | ok u => exact ⟨_, rfl, rfl⟩
      | error e => exact ⟨_, rfl, rfl⟩
  · simp only [h1, Bool.false_eq_true, if_false]
    cases env.tts st.calls.length _ with
    | ok u => exact ⟨_, rfl, rfl⟩
    | error e => exact ⟨_, rfl, rfl⟩

/-- Claim C3 (corrected), amended: in `tts_service.py` (and likewise the
backup service) the sanitization does hold — every inference call issued
by `generate_speech` carries a text containing no straight double or
single quote, whatever quotes the input contained; the hybrid service's
dispatcher, by contrast, passes the text through unsanitized (see the
counterexample). -/
theorem C3_amended (env : GenEnv) (st : CallState)
    (text reference_audio_filename language : String) (args : TTSArgs)
    (hmem : args ∈ (TtsService.generate_speech env st text
        reference_audio_filename language).2.calls) :
    args ∈ st.calls ∨ ∀ c ∈ args.text.data, c ≠ dquoteChar ∧ c ≠ squoteChar := by
  obtain ⟨a, ha, hat⟩ :=
    ts_generate_speech_calls env st text reference_audio_filename language
  rw [ha, List.mem_append] at hmem
  rcases hmem with hmem | hmem
  · exact Or.inl hmem
  · right
    intro c hc
    rw [List.mem_singleton] at hmem
    subst hmem
    rw [hat] at hc
    exact mem_sanitized text c hc

/-- Witness for C3's amended theorem: a quoted input text reaches the
engine with the quote removed. -/
theorem C3_amended_witness :
    ((⟨"hi", some "Charlotte.WAV", some "en"⟩ : TTSArgs) ∈
        (TtsService.generate_speech genEnvOk {} quotedText "Charlotte.WAV"
          "en").2.calls) ∧
      ((⟨"hi", some "Charlotte.WAV", some "en"⟩ : TTSArgs) ∈ ({} : CallState).calls ∨
        ∀ c ∈ ("hi" : String).data, c ≠ dquoteChar ∧ c ≠ squoteChar) :=
  ⟨by decide,
    C3_amended genEnvOk {} quotedText "Charlotte.WAV" "en" _ (by decide)⟩

/-- Claim C4 (corrected), counterexample: on the legacy `/api/tts` surface
of the hybrid service, a request whose text is empty is not rejected —
the engine is invoked with the empty text and the response is 200, not a
400 client error. -/
theorem C4_counterexample :
    (Hybrid.route_api_tts (fun _ => 0) hybridEnvOk {}
        (some { text := "", reference_audio_filename := some "Charlotte.WAV" })).1.status
        = 200 ∧
      (Hybrid.route_api_tts (fun _ => 0) hybridEnvOk {}
        (some { text := "", reference_audio_filename := some "Charlotte.WAV" })).2.trace
        = [Hybrid.EngineCall.chatterbox "" "Charlotte.WAV"] := by
  decide

/-- Claim C4 (corrected), amended: on the `/generate` endpoint the claim
holds as stated — a missing body, a text or voice empty after trimming, or
a voice absent from the registry yields HTTP 400 with a JSON error field
and leaves the service state untouched (no engine loading and no
synthesis call); the legacy `/api/tts` endpoint, by contrast, only
validates `reference_audio_filename` (see the counterexample). -/
theorem C4_amended (env : Hybrid.HybridEnv) (st : Hybrid.HybridState)
    (data : Option GenBody)
    (hbad : data = none ∨ ∃ b, data = some b ∧
      (pyStrip b.text = "" ∨ pyStrip b.voice = "" ∨
        Hybrid.voice_config.lookup (pyStrip b.voice) = none)) :
    (Hybrid.route_generate env st data).1.status = 400 ∧
      ((Hybrid.route_generate env st data).1.error).isSome ∧
      (Hybrid.route_generate env st data).2 = st := by
  rcases hbad with rfl | ⟨b, rfl, hb⟩
  · simp [Hybrid.route_generate]
  · by_cases ht : pyStrip b.text = ""
    · simp [Hybrid.route_generate, ht]
    · by_cases hv : pyStrip b.voice = ""
      · simp [Hybrid.route_generate, ht, hv]
      · rcases hb with h | h | h
        · exact absurd h ht
        · exact absurd h hv
        · simp [Hybrid.route_generate, ht, hv, h]

/-- Witness for C4's amended theorem: an empty text with a valid voice is
rejected with 400 and no state change. -/
theorem C4_amended_witness :
    (Hybrid.route_generate hybridEnvOk {}
        (some { text := "", voice := "Charlotte" })).1.status = 400 ∧
      ((Hybrid.route_generate hybridEnvOk {}
        (some { text := "", voice := "Charlotte" })).1.error).isSome ∧
      (Hybrid.route_generate hybridEnvOk {}
        (some { text := "", voice := "Charlotte" })).2 = {} :=
  C4_amended hybridEnvOk {} _ (Or.inr ⟨_, rfl, Or.inl (by decide)⟩)

/-- Claim C5 (corrected), counterexample: in `tts_service.py` the language
parameter handed to the engine comes from the request's `language` field —
two requests identical except for that field issue engine calls with
different language arguments. -/
theorem C5_counterexample :
    (TtsService.handle_tts_request (fun _ => 0) genEnvOk {}
        (some { text := "Ola", reference_audio_filename := some "Paulo.WAV",
                language := "pt" })).2.calls =
      [{ text := "Ola", speaker_wav := some "Paulo.WAV", language := some "pt" }] ∧
    (TtsService.handle_tts_request (fun _ => 0) genEnvOk {}
        (some { text := "Ola", reference_audio_filename := some "Paulo.WAV",
                language := "en" })).2.calls =
      [{ text := "Ola", speaker_wav := some "Paulo.WAV", language := some "en" }] := by
  decide

/-- Claim C5 (corrected), amended: the hybrid service does satisfy the
claim — its legacy endpoint's entire observable behaviour (response and
engine-call trace alike) is independent of the request's `language` field,
the engine kind and language being read off the voice registry alone; in
`tts_service.py` the request's language field is passed through to the
engine (see the counterexample). -/
theorem C5_amended (pyHash : String → Int) (env : Hybrid.HybridEnv)
    (st : Hybrid.HybridState) (text ref lang1 lang2 : String) :
    Hybrid.route_api_tts pyHash env st
        (some { text := text, reference_audio_filename := some ref,
                language := lang1 }) =
      Hybrid.route_api_tts pyHash env st
        (some { text := text, reference_audio_filename := some ref,
                language := lang2 }) := rfl

/-- Claim C6 (confirmed): in the multilingual synthesis path of the backup
service, if the inference call made with a language argument raises with a
message naming both "language" and "multi-lingual", the identical call is
retried exactly once without the language argument; any other exception is
re-raised unchanged (failure, no second call); and no retry happens when
the first call succeeds. -/
theorem C6_language_retry (ctorOk : Nat → String → Bool) (env : GenEnv)
    (text reference_audio_filename language : String)
    (hsw : env.hasSpeakerWav = true)
    (hre : env.refExists reference_audio_filename = true)
    (hload : ((TtsServiceBackup.load_model ctorOk
        ((TtsServiceBackup.VOICE_LANGUAGES.lookup reference_audio_filename).getD
          language) {}).1).isSome) :
    let args : TTSArgs :=
      { text := sanitizedText text, speaker_wav := some reference_audio_filename,
        language := some ((TtsServiceBackup.VOICE_LANGUAGES.lookup
          reference_audio_filename).getD language) }
    let argsNoLang : TTSArgs := { args with language := none }
    let r := TtsServiceBackup.generate_speech ctorOk env {} text
      reference_audio_filename language
    (env.tts 0 args = .ok () → r.2.calls = [args] ∧ r.1 = true) ∧
      (∀ e, env.tts 0 args = .error e → langCapErr e = true →
        r.2.calls = [args, argsNoLang] ∧
          (r.1 = true ↔ env.tts 1 argsNoLang = .ok ())) ∧
      (∀ e, env.tts 0 args = .error e → langCapErr e = false →
        r.2.calls = [args] ∧ r.1 = false) := by
  intro args argsNoLang r
  rcases hlm : TtsServiceBackup.load_model ctorOk
      ((TtsServiceBackup.VOICE_LANGUAGES.lookup reference_audio_filename).getD
        language) {} with ⟨o, ls⟩
  rw [hlm] at hload
  obtain ⟨h, rfl⟩ := Option.isSome_iff_exists.mp hload
  have hr : r = TtsServiceBackup.generate_speech ctorOk env {} text
      reference_audio_filename language := rfl
  simp only [TtsServiceBackup.generate_speech, hlm, hsw, hre, if_true,
    TtsServiceBackup.tts_try, List.length_nil, List.nil_append] at hr
  refine ⟨?_, ?_, ?_⟩
  · intro hok
    rw [hok] at hr
    simp only at hr
    rw [hr]
    exact ⟨rfl, rfl⟩
  · intro e herr hcap
    rw [herr] at hr
    simp only [hcap, if_true] at hr
    cases h2 : env.tts 1 argsNoLang with
    | ok u =>
      rw [h2] at hr
      simp only at hr
      rw [hr]
      exact ⟨rfl, by simp [h2]⟩
    | error e2 =>
      rw [h2] at hr
      simp only at hr
      rw [hr]
      refine ⟨rfl, ?_⟩
      simp [h2]
  · intro e herr hcap
    rw [herr] at hr
    simp only [hcap, Bool.false_eq_true, if_false] at hr
    rw [hr]
    exact ⟨rfl, rfl⟩

/-- Witness for C6 at a concrete environment whose inference always
succeeds: the first call succeeds and no retry is issued. -/
theorem C6_language_retry_witness :
    genEnvOk.hasSpeakerWav = true ∧
      genEnvOk.refExists "Charlotte.WAV" = true ∧
      ((TtsServiceBackup.load_model ctorAllOk
        ((TtsServiceBackup.VOICE_LANGUAGES.lookup "Charlotte.WAV").getD "pt")
        {}).1).isSome ∧
      (genEnvOk.tts 0
          { text := sanitizedText "hi", speaker_wav := some "Charlotte.WAV",
            language := some ((TtsServiceBackup.VOICE_LANGUAGES.lookup
              "Charlotte.WAV").getD "pt") } = .ok () →
        (TtsServiceBackup.generate_speech ctorAllOk genEnvOk {} "hi"
            "Charlotte.WAV" "pt").2.calls =
          [{ text := sanitizedText "hi", speaker_wav := some "Charlotte.WAV",
             language := some ((TtsServiceBackup.VOICE_LANGUAGES.lookup
               "Charlotte.WAV").getD "pt") }] ∧
        (TtsServiceBackup.generate_speech ctorAllOk genEnvOk {} "hi"
            "Charlotte.WAV" "pt").1 = true) :=
  ⟨rfl, rfl, by decide,
    (C6_language_retry ctorAllOk genEnvOk "hi" "Charlotte.WAV" "pt" rfl rfl
      (by decide)).1⟩

/-- Claim C7 (corrected), counterexample: a successful synthesis on the
xtts path returns the audio exactly as read from the engine's output file
— here a two-axis (5 × 2) array reaches the caller as the success payload,
so the dispatcher's waveform is not always one-dimensional and no
dimension collapsing happens on this path. -/
theorem C7_counterexample :
    (Hybrid.generate_speech hybridEnvOk {} "Oi" "Paulo" none).1 =
        (true, Hybrid.Payload.audio ⟨false, [5, 2]⟩, some 22050) ∧
      ([5, 2] : List Nat).length ≠ 1 := by
  decide

/-- Claim C7 (corrected), amended: on the chatterbox path the
normalization does happen — a successful generation returns the engine's
reported sample rate together with the normalized waveform, which is no
longer a framework tensor, and which is one-dimensional whenever the raw
engine output had at most one non-singleton axis; the xtts path returns
the file contents as read, without tensor conversion or dimension
collapsing (see the counterexample). -/
theorem C7_amended (env : Hybrid.HybridEnv) (st : Hybrid.HybridState)
    (text reference_audio_path : String) (output_path : Option String)
    (a : Hybrid.AudioData)
    (hload : st.chatterbox_model.isSome = true ∨ env.chatterboxLoadOk = true)
    (hgen : env.chatterboxGen text reference_audio_path = .ok a) :
    (Hybrid._generate_chatterbox env st text reference_audio_path output_path).1 =
        (true, Hybrid.Payload.audio (Hybrid.chatterboxNormalize a),
          some env.chatterboxSr) ∧
      (Hybrid.chatterboxNormalize a).isTensor = false ∧
      ((a.shape.filter (fun n => n != 1)).length = 1 →
        (Hybrid.chatterboxNormalize a).shape.length = 1) := by
  obtain ⟨st1, hst1⟩ : ∃ st1, Hybrid._load_chatterbox env st = (true, st1) := by
    rcases hload with hload | hload
    · exact ⟨st, by simp [Hybrid._load_chatterbox, hload]⟩
    · by_cases hc : st.chatterbox_model.isSome
      · exact ⟨st, by simp [Hybrid._load_chatterbox, hc]⟩
      · exact ⟨{ st with chatterbox_model := some env.chatterboxHandle },
          by simp [Hybrid._load_chatterbox, hc, hload]⟩
  refine ⟨?_, ?_, ?_⟩
  · simp only [Hybrid._generate_chatterbox, hst1, hgen]
  · obtain ⟨t, sh⟩ := a
    cases t <;> simp [Hybrid.chatterboxNormalize, apply_ite]
  · obtain ⟨t, sh⟩ := a
    intro hf
    have hle : (sh.filter (fun n => n != 1)).length ≤ sh.length :=
      List.length_filter_le _ _
    have hf2 : (sh.filter (fun n => n != 1)).length = 1 := hf
    have ha1 : Hybrid.chatterboxNormalize ⟨t, sh⟩ =
        if sh.length > 1 then
          { isTensor := false, shape := sh.filter (fun n => n != 1) }
        else { isTensor := false, shape := sh } := by
      cases t <;> rfl
    rw [ha1]
    by_cases hlen : sh.length > 1
    · rw [if_pos hlen]
      exact hf2
    · rw [if_neg hlen]
      show sh.length = 1
      simp only [gt_iff_lt, not_lt] at hlen
      omega

/-- Witness for C7's amended theorem: a 1-D tensor from the engine comes
back as a 1-D plain array with the engine's sample rate. -/
theorem C7_amended_witness :
    (({} : Hybrid.HybridState).chatterbox_model.isSome = true ∨
        hybridEnvOk.chatterboxLoadOk = true) ∧
      hybridEnvOk.chatterboxGen "hi" "Charlotte.WAV" = .ok ⟨true, [3]⟩ ∧
      ((Hybrid._generate_chatterbox hybridEnvOk {} "hi" "Charlotte.WAV" none).1 =
          (true, Hybrid.Payload.audio (Hybrid.chatterboxNormalize ⟨true, [3]⟩),
            some hybridEnvOk.chatterboxSr) ∧
        (Hybrid.chatterboxNormalize ⟨true, [3]⟩).isTensor = false ∧
        ((([3] : List Nat).filter (fun n => n != 1)).length = 1 →
          (Hybrid.chatterboxNormalize ⟨true, [3]⟩).shape.length = 1)) :=
  ⟨Or.inr rfl, rfl,
    C7_amended hybridEnvOk {} "hi" "Charlotte.WAV" none ⟨true, [3]⟩ (Or.inr rfl) rfl⟩
